import Mathlib

set_option maxRecDepth 10000

/-!
Shallow embedding of the WYGIWYH startup configuration validator
(`app/apps/common/checks.py`) and of two user-facing view handlers
(`app/apps/users/views.py`), together with theorems settling the frozen
claims about them.

Conventions of the embedding:
* the process environment (`os.environ`) is an association list from
  variable names to string values; `os.getenv` is lookup;
* Python truthiness of an optional string (`if not value:`) is: absent
  or the empty string;
* Python `int(str)` is modelled for ASCII input: optional surrounding
  whitespace, an optional single sign, then a non-empty digit run in
  which underscores may appear only between two digits;
* `str.lower()` is modelled by ASCII lowercasing (the only values the
  code compares against are ASCII);
* the Django `Error(msg, hint=..., id=...)` value is a record; a check returns
  a list of such records;
* `checks.py` imports only `os`, `Error` and `register`; the global
  name `settings` used by `check_oidc_vars` is unbound in the module
  scope, so evaluating `settings.OIDC_ONLY` raises `NameError`.  The
  binding of that name is threaded explicitly as an `Option Settings`
  whose value in the actual module is `none`.
-/

namespace Wygiwyh

/-- The process environment snapshot: bindings of variable names to values. -/
def Env : Type := List (String × String)

/-- Model of `os.getenv(name)`: the value bound to `name`, if any. -/
def getenv (env : Env) (name : String) : Option String :=
  (env.find? (fun p => p.1 = name)).map (fun p => p.2)

/-- Model of `os.getenv(name, default)`: lookup with a default for an
absent binding. -/
def getenvD (env : Env) (name default : String) : String :=
  (getenv env name).getD default

/-- Python truthiness test `not value` for `value = os.getenv(name)`:
true when the binding is absent or the bound string is empty. -/
def pyFalsy (v : Option String) : Bool :=
  match v with
  | none => true
  | some s => s = ""

/-- Whitespace characters stripped by Python `int(str)`. -/
def pySpace (c : Char) : Bool :=
  c = ' ' || c = '\t' || c = '\n' || c = '\r' || c = '\x0b' || c = '\x0c'

/-- Continuation of a digit run: digits, with each underscore followed by
a digit (and, by construction of the caller, preceded by one). -/
def pyDigitsGo : List Char → Bool
  | [] => true
  | c :: rest =>
    if c.isDigit then pyDigitsGo rest
    else if c = '_' then
      match rest with
      | [] => false
      | d :: rest2 => d.isDigit && pyDigitsGo rest2
    else false

/-- A valid Python integer digit run: non-empty, starts with a digit,
underscores only between digits. -/
def pyDigits (l : List Char) : Bool :=
  match l with
  | [] => false
  | c :: _ => c.isDigit && pyDigitsGo l

/-- Whether Python `int(value)` succeeds on `value` (ASCII model):
strip whitespace, allow one optional sign, then a valid digit run. -/
def pyIntParses (s : String) : Bool :=
  let l := ((s.data.dropWhile pySpace).reverse.dropWhile pySpace).reverse
  match l with
  | '+' :: rest => pyDigits rest
  | '-' :: rest => pyDigits rest
  | _ => pyDigits l

/-- Python `str.lower()`, ASCII model. -/
def pyLower (s : String) : String :=
  String.mk (s.data.map Char.toLower)

/-- Django `django.core.checks.Error`: message, optional remediation hint,
and stable identifier. -/
structure Error where
  msg : String
  hint : Option String
  id : String
deriving DecidableEq, Repr

/-- The string `pat` occurs verbatim inside `msg`. -/
def mentions (msg pat : String) : Prop :=
  pat.data <:+: msg.data

instance (msg pat : String) : Decidable (mentions msg pat) :=
  List.decidableInfix pat.data msg.data

/-- The list `REQUIRED_ENV_VARS` of environment variables that are
required (no default values). -/
def REQUIRED_ENV_VARS : List (String × String) :=
  [("SECRET_KEY", "This is used to provide cryptographic signing."),
   ("SQL_DATABASE", "The name of your postgres database.")]

/-- The list `INT_ENV_VARS` of environment variables that must be valid
integers if set. -/
def INT_ENV_VARS : List (String × String) :=
  [("TASK_WORKERS", "How many workers to have for async tasks."),
   ("SESSION_EXPIRY_TIME", "The age of session cookies, in seconds."),
   ("INTERNAL_PORT", "The port on which the app listens on."),
   ("DJANGO_VITE_DEV_SERVER_PORT", "The port where Vite\x27s dev server is running")]

/-- The `Error` appended by `check_required_env_vars` for variable
`name` with description `desc`. -/
def requiredError (name desc : String) : Error :=
  { msg := "Required environment variable \x27" ++ name ++ "\x27 is not set."
    hint := some (desc ++ " Please set this variable in your .env file or environment.")
    id := "wygiwyh.E001" }

/-- The check `check_required_env_vars`: check that all required
environment variables are set; returns Error objects for any missing
required variables. -/
def check_required_env_vars (env : Env) : List Error :=
  REQUIRED_ENV_VARS.foldl
    (fun errors p =>
      if pyFalsy (getenv env p.1) then
        errors ++ [requiredError p.1 p.2]
      else errors)
    []

/-- The `Error` appended by `check_int_env_vars` for variable `name`
with description `desc` and offending value `value`. -/
def intError (name desc value : String) : Error :=
  { msg := "Environment variable \x27" ++ name ++
      "\x27 must be a valid integer, got \x27" ++ value ++ "\x27."
    hint := some desc
    id := "wygiwyh.E002" }

/-- The check `check_int_env_vars`: check that environment variables
that should be integers are valid; an absent binding is skipped, a
present binding (empty string included) is parsed and a parse failure
is reported. -/
def check_int_env_vars (env : Env) : List Error :=
  INT_ENV_VARS.foldl
    (fun errors p =>
      match getenv env p.1 with
      | none => errors
      | some value =>
        if pyIntParses value then errors
        else errors ++ [intError p.1 p.2 value])
    []

/-- The `Error` appended by `check_soft_delete_config` for offending
value `value`. -/
def softDeleteError (value : String) : Error :=
  { msg := "Environment variable \x27KEEP_DELETED_TRANSACTIONS_FOR\x27 must be a valid integer when ENABLE_SOFT_DELETE is enabled, got \x27" ++ value ++ "\x27."
    hint := some "Time in days to keep soft deleted transactions for. Set to 0 to keep all transactions indefinitely."
    id := "wygiwyh.E003" }

/-- Evaluation of `os.getenv("ENABLE_SOFT_DELETE", "false").lower() == "true"`. -/
def softDeleteEnabled (env : Env) : Bool :=
  pyLower (getenvD env "ENABLE_SOFT_DELETE" "false") = "true"

/-- The check `check_soft_delete_config`: when soft delete is enabled and
`KEEP_DELETED_TRANSACTIONS_FOR` is present but not an integer, report it. -/
def check_soft_delete_config (env : Env) : List Error :=
  if softDeleteEnabled env then
    match getenv env "KEEP_DELETED_TRANSACTIONS_FOR" with
    | none => []
    | some value =>
      if pyIntParses value then []
      else [softDeleteError value]
  else []

/-- The findings contributed by a single iteration of the loop of
`check_required_env_vars` for the entry `p`. -/
def requiredEntryFindings (env : Env) (p : String × String) : List Error :=
  if pyFalsy (getenv env p.1) then [requiredError p.1 p.2] else []

/-- The findings contributed by a single iteration of the loop of
`check_int_env_vars` for the entry `p`. -/
def intEntryFindings (env : Env) (p : String × String) : List Error :=
  match getenv env p.1 with
  | none => []
  | some value =>
    if pyIntParses value then [] else [intError p.1 p.2 value]

/-- The resolved Django settings fields read by `check_oidc_vars`:
the `OIDC_ONLY` flag and the registered external-authentication
provider entries (only their count is consulted). -/
structure Settings where
  OIDC_ONLY : Bool
  SOCIALACCOUNT_PROVIDERS : List String
deriving DecidableEq, Repr

/-- The `Error` appended by `check_oidc_vars` (no hint argument). -/
def oidcError : Error :=
  { msg := "Environment variable OIDC_ONLY can only be set when there is exactly one external authentication provider configured."
    hint := none
    id := "wygiwyh.E004" }

/-- The check `check_oidc_vars`: evaluating `settings.OIDC_ONLY` first resolves the
global name `settings`; when it is unbound the check raises `NameError`,
otherwise the single-provider invariant is checked. -/
def check_oidc_vars (settingsBinding : Option Settings) : Except String (List Error) :=
  match settingsBinding with
  | none => Except.error "NameError"
  | some s =>
    if s.OIDC_ONLY && s.SOCIALACCOUNT_PROVIDERS.length ≠ 1 then
      Except.ok [oidcError]
    else
      Except.ok []

/-- The module scope of `checks.py` binds `os`, `Error`, `register` and
the module-level definitions; it never binds the name `settings`
(no `from django.conf import settings` appears). -/
def checksModuleSettings : Option Settings := none

/-- The state visible to the check pass: the environment snapshot and
the binding of the name `settings` available to `check_oidc_vars`. -/
structure CheckState where
  env : Env
  settingsBinding : Option Settings

/-- Running all four registered checks in registration order against a
state, concatenating findings; an exception escaping a check aborts the
pass.  The state is threaded through and returned so that mutation (or
its absence) is observable. -/
def run_all_checks (st : CheckState) : Except String (List Error) × CheckState :=
  let e1 := check_required_env_vars st.env
  let e2 := check_int_env_vars st.env
  let e3 := check_soft_delete_config st.env
  match check_oidc_vars st.settingsBinding with
  | Except.ok e4 => (Except.ok (e1 ++ e2 ++ e3 ++ e4), st)
  | Except.error n => (Except.error n, st)

/-! Embedding of the two view handlers of `app/apps/users/views.py`
that the claims concern. -/

/-- The start-page preference of a user.  The enumeration
`UserSettings.StartPage` is declared in `apps/users/models.py`, which is
not part of the excerpt; the view in `views.py` compares the stored
value against its seven members.  `stored` represents any persisted
value that is not one of the seven enumeration members (the field is a
string column, so such values are possible). -/
inductive StartPage
  | MONTHLY
  | YEARLY_ACCOUNT
  | YEARLY_CURRENCY
  | NETWORTH_CURRENT
  | NETWORTH_PROJECTED
  | ALL_TRANSACTIONS
  | CALENDAR
  | stored (s : String)
deriving DecidableEq, Repr

/-- The responses a view of this excerpt produces: an HTTP redirect to a
named route, or a bare status response. -/
inductive ViewResponse
  | redirect (route : String)
  | status (code : Nat)
deriving DecidableEq, Repr

/-- The view `index`: dispatch on `request.user.settings.start_page`, redirecting
to the page named by the matching branch, with the monthly index as the
final `else`. -/
def index (start_page : StartPage) : ViewResponse :=
  if start_page = StartPage.MONTHLY then
    ViewResponse.redirect "monthly_index"
  else if start_page = StartPage.YEARLY_ACCOUNT then
    ViewResponse.redirect "yearly_index_account"
  else if start_page = StartPage.YEARLY_CURRENCY then
    ViewResponse.redirect "yearly_index_currency"
  else if start_page = StartPage.NETWORTH_CURRENT then
    ViewResponse.redirect "net_worth_current"
  else if start_page = StartPage.NETWORTH_PROJECTED then
    ViewResponse.redirect "net_worth_projected"
  else if start_page = StartPage.ALL_TRANSACTIONS then
    ViewResponse.redirect "transactions_all_index"
  else if start_page = StartPage.CALENDAR then
    ViewResponse.redirect "calendar_index"
  else
    ViewResponse.redirect "monthly_index"

/-- The view `toggle_theme`: `request.session.get("theme")` is falsy when the key
is absent or holds the empty string; in that case the session theme is
first set to `"wygiwyh_dark"`, and then the stored value is flipped
(dark to light, light to dark, anything else to light).  Returns the
session theme after the call together with the HTTP 204 response. -/
def toggle_theme (theme0 : Option String) : String × ViewResponse :=
  let cur :=
    if pyFalsy theme0 then "wygiwyh_dark"
    else theme0.getD "wygiwyh_dark"
  let new :=
    if cur = "wygiwyh_dark" then "wygiwyh_light"
    else if cur = "wygiwyh_light" then "wygiwyh_dark"
    else "wygiwyh_light"
  (new, ViewResponse.status 204)

/-- The end-to-end scenario environment of the specification:
`SECRET_KEY` bound to a non-empty string, `SQL_DATABASE` bound to the
empty string, `TASK_WORKERS` bound to a non-integer string. -/
def scenarioEnv : Env :=
  [("SECRET_KEY", "x"), ("SQL_DATABASE", ""), ("TASK_WORKERS", "4a")]

/-! Helper lemmas shared by the claim theorems. -/

/-- Folding an accumulate-and-append loop body over a list concatenates
the per-element contributions in list order. -/
theorem foldl_append_bind {α β : Type} (g : α → List β) (l : List α) (acc : List β) :
    l.foldl (fun acc2 a => acc2 ++ g a) acc = acc ++ l.flatMap g := by
  induction l generalizing acc with
  | nil => simp
  | cons x xs ih => simp [List.foldl_cons, ih]

/-- The required-value check is the concatenation, in declaration order,
of the per-entry findings. -/
theorem check_required_bind (env : Env) :
    check_required_env_vars env = REQUIRED_ENV_VARS.flatMap (requiredEntryFindings env) := by
  have hbody : (fun (errors : List Error) (p : String × String) =>
      if pyFalsy (getenv env p.1) then errors ++ [requiredError p.1 p.2] else errors)
      = fun errors p => errors ++ requiredEntryFindings env p := by
    funext errors p
    unfold requiredEntryFindings
    by_cases h : pyFalsy (getenv env p.1) = true <;> simp [h]
  unfold check_required_env_vars
  rw [hbody, foldl_append_bind]
  simp

/-- The integer-format check is the concatenation, in declaration order,
of the per-entry findings. -/
theorem check_int_bind (env : Env) :
    check_int_env_vars env = INT_ENV_VARS.flatMap (intEntryFindings env) := by
  have hbody : (fun (errors : List Error) (p : String × String) =>
      match getenv env p.1 with
      | none => errors
      | some value =>
        if pyIntParses value then errors
        else errors ++ [intError p.1 p.2 value])
      = fun errors p => errors ++ intEntryFindings env p := by
    funext errors p
    unfold intEntryFindings
    cases getenv env p.1 with
    | none => simp
    | some v => by_cases h : pyIntParses v = true <;> simp [h]
  unfold check_int_env_vars
  rw [hbody, foldl_append_bind]
  simp

/-- Two integer-format findings with different descriptions differ. -/
theorem intError_ne (n d v n' d' v' : String) (h : d ≠ d') :
    intError n d v ≠ intError n' d' v' := by
  intro he
  exact h (Option.some.inj (congrArg Error.hint he))

/-- The pass state is returned unchanged by the pass, whether the fourth
check returns findings or raises. -/
theorem run_all_checks_state (st : CheckState) : (run_all_checks st).2 = st := by
  cases h : check_oidc_vars st.settingsBinding <;> simp [run_all_checks, h]

/-- With the name `settings` bound, `check_oidc_vars` always returns a
finding list. -/
theorem check_oidc_vars_some_ok (s : Settings) :
    ∃ l, check_oidc_vars (some s) = Except.ok l := by
  simp only [check_oidc_vars]
  split <;> exact ⟨_, rfl⟩

/-- Claim C2: for every (name, description) pair in `REQUIRED_ENV_VARS`,
an absent or empty binding of the name yields a finding with stable code
`wygiwyh.E001` whose message mentions the name, and a non-empty binding
yields no finding mentioning the name, regardless of its content. -/
theorem required_env_check_spec (env : Env) (p : String × String)
    (hmem : p ∈ REQUIRED_ENV_VARS) :
    (pyFalsy (getenv env p.1) = true →
      ∃ e ∈ check_required_env_vars env,
        e.id = "wygiwyh.E001" ∧ mentions e.msg p.1)
    ∧ (∀ v, getenv env p.1 = some v → v ≠ "" →
        ∀ e ∈ check_required_env_vars env, ¬ mentions e.msg p.1) := by
  simp only [REQUIRED_ENV_VARS, List.mem_cons, List.not_mem_nil, or_false] at hmem
  have main : ∀ q : String × String, q ∈ REQUIRED_ENV_VARS → p = q →
      (pyFalsy (getenv env p.1) = true →
        ∃ e ∈ check_required_env_vars env,
          e.id = "wygiwyh.E001" ∧ mentions e.msg p.1) := by
    rintro q hq rfl hfal
    refine ⟨requiredError p.1 p.2, ?_, ?_, ?_⟩
    · rw [check_required_bind]
      exact List.mem_flatMap.mpr ⟨p, hq, by simp [requiredEntryFindings, hfal]⟩
    · rfl
    · show p.1.data <:+: (requiredError p.1 p.2).msg.data
      refine ⟨"Required environment variable \x27".data, "\x27 is not set.".data, ?_⟩
      simp [requiredError]
  rcases hmem with rfl | rfl
  · constructor
    · exact main _ (by simp [REQUIRED_ENV_VARS]) rfl
    · intro v hv hne e he hm
      rw [check_required_bind] at he
      obtain ⟨q, hq, he2⟩ := List.mem_flatMap.mp he
      simp only [REQUIRED_ENV_VARS, List.mem_cons, List.not_mem_nil, or_false] at hq
      have hfalse : pyFalsy (getenv env "SECRET_KEY") = false := by
        rw [hv]; simp [pyFalsy, hne]
      rcases hq with rfl | rfl
      · simp [requiredEntryFindings, hfalse] at he2
      · simp only [requiredEntryFindings] at he2
        by_cases h2 : pyFalsy (getenv env "SQL_DATABASE") = true
        · simp [h2] at he2
          subst he2
          revert hm
          decide
        · simp [h2] at he2
  · constructor
    · exact main _ (by simp [REQUIRED_ENV_VARS]) rfl
    · intro v hv hne e he hm
      rw [check_required_bind] at he
      obtain ⟨q, hq, he2⟩ := List.mem_flatMap.mp he
      simp only [REQUIRED_ENV_VARS, List.mem_cons, List.not_mem_nil, or_false] at hq
      have hfalse : pyFalsy (getenv env "SQL_DATABASE") = false := by
        rw [hv]; simp [pyFalsy, hne]
      rcases hq with rfl | rfl
      · simp only [requiredEntryFindings] at he2
        by_cases h2 : pyFalsy (getenv env "SECRET_KEY") = true
        · simp [h2] at he2
          subst he2
          revert hm
          decide
        · simp [h2] at he2
      · simp [requiredEntryFindings, hfalse] at he2

/-- Witness for claim C2 at the empty environment and the `SECRET_KEY`
entry. -/
theorem required_env_check_spec_witness :
    ∃ e ∈ check_required_env_vars ([] : Env),
      e.id = "wygiwyh.E001" ∧ mentions e.msg "SECRET_KEY" :=
  (required_env_check_spec []
      ("SECRET_KEY", "This is used to provide cryptographic signing.")
      (by decide)).1 (by decide)

/-- Claim C3: for every (name, description) pair in `INT_ENV_VARS`, a
present binding whose value fails integer parsing yields a finding with
stable code `wygiwyh.E002` containing the offending value verbatim; a
present binding that parses yields no finding for that entry; an absent
binding yields no finding for that entry; and the sample values of the
specification parse, or fail to parse, as it states. -/
theorem int_env_check_spec (env : Env) (p : String × String)
    (hmem : p ∈ INT_ENV_VARS) :
    (∀ v, getenv env p.1 = some v → pyIntParses v = false →
      ∃ e ∈ check_int_env_vars env, e.id = "wygiwyh.E002" ∧ mentions e.msg v)
    ∧ (∀ v, getenv env p.1 = some v → pyIntParses v = true →
        ∀ w, intError p.1 p.2 w ∉ check_int_env_vars env)
    ∧ (getenv env p.1 = none → ∀ w, intError p.1 p.2 w ∉ check_int_env_vars env)
    ∧ pyIntParses "0" = true ∧ pyIntParses "-5" = true ∧ pyIntParses "1000" = true
    ∧ pyIntParses "" = false ∧ pyIntParses "abc" = false ∧ pyIntParses "12.5" = false := by
  have hdesc : ∀ q ∈ INT_ENV_VARS, ∀ r ∈ INT_ENV_VARS, q ≠ r → q.2 ≠ r.2 := by decide
  refine ⟨?_, ?_, ?_, by decide, by decide, by decide, by decide, by decide, by decide⟩
  · intro v hv hp
    refine ⟨intError p.1 p.2 v, ?_, rfl, ?_⟩
    · rw [check_int_bind]
      refine List.mem_flatMap.mpr ⟨p, hmem, ?_⟩
      unfold intEntryFindings
      rw [hv]
      simp [hp]
    · show v.data <:+: (intError p.1 p.2 v).msg.data
      refine ⟨("Environment variable \x27" ++ p.1 ++
        "\x27 must be a valid integer, got \x27").data, "\x27.".data, ?_⟩
      simp [intError]
  · intro v hv hp w hw
    rw [check_int_bind] at hw
    obtain ⟨q, hq, he⟩ := List.mem_flatMap.mp hw
    unfold intEntryFindings at he
    by_cases heq : q = p
    · subst heq
      rw [hv] at he
      simp [hp] at he
    · rcases hg : getenv env q.1 with _ | v'
      · rw [hg] at he; simp at he
      · rw [hg] at he
        by_cases hpv : pyIntParses v' = true
        · simp [hpv] at he
        · simp [hpv] at he
          have h2 : p.2 = q.2 := Option.some.inj (congrArg Error.hint he)
          exact hdesc q hq p hmem heq h2.symm
  · intro hv w hw
    rw [check_int_bind] at hw
    obtain ⟨q, hq, he⟩ := List.mem_flatMap.mp hw
    unfold intEntryFindings at he
    by_cases heq : q = p
    · subst heq
      rw [hv] at he
      simp at he
    · rcases hg : getenv env q.1 with _ | v'
      · rw [hg] at he; simp at he
      · rw [hg] at he
        by_cases hpv : pyIntParses v' = true
        · simp [hpv] at he
        · simp [hpv] at he
          have h2 : p.2 = q.2 := Option.some.inj (congrArg Error.hint he)
          exact hdesc q hq p hmem heq h2.symm

/-- Witness for claim C3 at an environment binding `TASK_WORKERS` to the
non-integer string `4a`. -/
theorem int_env_check_spec_witness :
    ∃ e ∈ check_int_env_vars [("TASK_WORKERS", "4a")],
      e.id = "wygiwyh.E002" ∧ mentions e.msg "4a" :=
  (int_env_check_spec [("TASK_WORKERS", "4a")]
      ("TASK_WORKERS", "How many workers to have for async tasks.")
      (by decide)).1 "4a" (by decide) (by decide)

/-- Claim C4: `ENABLE_SOFT_DELETE` is treated as true exactly when its
value equals `true` case-insensitively (absent or any other value is
false); when the flag is true and `KEEP_DELETED_TRANSACTIONS_FOR` is
present but fails integer parsing, exactly one finding with stable code
`wygiwyh.E003` is emitted; when the flag is false, or the dependent
variable is absent, or it parses, no finding is emitted. -/
theorem soft_delete_check_spec (env : Env) :
    (softDeleteEnabled env = true ↔
      ∃ v, getenv env "ENABLE_SOFT_DELETE" = some v ∧ pyLower v = "true")
    ∧ (softDeleteEnabled env = true →
        ∀ v, getenv env "KEEP_DELETED_TRANSACTIONS_FOR" = some v →
          pyIntParses v = false →
          check_soft_delete_config env = [softDeleteError v] ∧
            (softDeleteError v).id = "wygiwyh.E003")
    ∧ (softDeleteEnabled env = false → check_soft_delete_config env = [])
    ∧ (getenv env "KEEP_DELETED_TRANSACTIONS_FOR" = none →
        check_soft_delete_config env = [])
    ∧ (∀ v, getenv env "KEEP_DELETED_TRANSACTIONS_FOR" = some v →
        pyIntParses v = true → check_soft_delete_config env = []) := by
  refine ⟨?_, ?_, ?_, ?_, ?_⟩
  · unfold softDeleteEnabled getenvD
    rcases hg : getenv env "ENABLE_SOFT_DELETE" with _ | v
    · simp
      decide
    · simp
  · intro hen v hv hp
    refine ⟨?_, rfl⟩
    simp [check_soft_delete_config, hen, hv, hp]
  · intro hen
    simp [check_soft_delete_config, hen]
  · intro hv
    simp [check_soft_delete_config, hv]
  · intro v hv hp
    simp [check_soft_delete_config, hv, hp]

/-- Witness for claim C4: the flag spelled `TRUE` with a non-integer
retention value produces exactly the one `wygiwyh.E003` finding. -/
theorem soft_delete_check_spec_witness :
    check_soft_delete_config
        [("ENABLE_SOFT_DELETE", "TRUE"), ("KEEP_DELETED_TRANSACTIONS_FOR", "abc")] =
      [softDeleteError "abc"] ∧ (softDeleteError "abc").id = "wygiwyh.E003" :=
  (soft_delete_check_spec
      [("ENABLE_SOFT_DELETE", "TRUE"), ("KEEP_DELETED_TRANSACTIONS_FOR", "abc")]).2.1
    (by decide) "abc" (by decide) (by decide)

/-- Claim C1 (evidence of the defect): in the actual module scope of
`checks.py` the name `settings` is unbound, so `check_oidc_vars` raises
`NameError` instead of returning a finding list, and the full pass over
any environment aborts with that exception: the registered checks are
not all total. -/
theorem check_oidc_vars_raises :
    check_oidc_vars checksModuleSettings = Except.error "NameError"
    ∧ ∀ env : Env,
        (run_all_checks ⟨env, checksModuleSettings⟩).1 = Except.error "NameError" :=
  ⟨rfl, fun _ => rfl⟩

/-- Claim C5 (evidence): with the actual module scope the cross-field
check raises `NameError` rather than returning findings; with the name
`settings` bound to resolved settings, the conditional body behaves as
the claim states: `OIDC_ONLY` true with provider count other than one
yields exactly one `wygiwyh.E004` finding, and otherwise no finding. -/
theorem oidc_check_intended_vs_actual :
    check_oidc_vars checksModuleSettings = Except.error "NameError"
    ∧ (∀ s : Settings, s.OIDC_ONLY = true → s.SOCIALACCOUNT_PROVIDERS.length ≠ 1 →
        check_oidc_vars (some s) = Except.ok [oidcError] ∧ oidcError.id = "wygiwyh.E004")
    ∧ (∀ s : Settings, s.OIDC_ONLY = true → s.SOCIALACCOUNT_PROVIDERS.length = 1 →
        check_oidc_vars (some s) = Except.ok [])
    ∧ (∀ s : Settings, s.OIDC_ONLY = false → check_oidc_vars (some s) = Except.ok []) := by
  refine ⟨rfl, ?_, ?_, ?_⟩
  · intro s h1 h2
    exact ⟨by simp [check_oidc_vars, h1, h2], rfl⟩
  · intro s h1 h2
    simp [check_oidc_vars, h1, h2]
  · intro s h1
    simp [check_oidc_vars, h1]

/-- Witness for claim C5 at `OIDC_ONLY` true with zero providers. -/
theorem oidc_check_intended_vs_actual_witness :
    check_oidc_vars (some ⟨true, []⟩) = Except.ok [oidcError]
    ∧ oidcError.id = "wygiwyh.E004" :=
  oidc_check_intended_vs_actual.2.1 ⟨true, []⟩ rfl (by decide)

/-- Claim C6: the full check pass is deterministic and stateless:
running it twice from the same state gives the same outcome and returns
the state unchanged, and whenever the name `settings` resolves, both
runs produce the identical finding list. -/
theorem full_pass_idempotent (st : CheckState) :
    run_all_checks ((run_all_checks st).2) = run_all_checks st
    ∧ ∀ s, st.settingsBinding = some s →
        ∃ findings, (run_all_checks st).1 = Except.ok findings ∧
          (run_all_checks ((run_all_checks st).2)).1 = Except.ok findings := by
  have hst := run_all_checks_state st
  constructor
  · rw [hst]
  · intro s hs
    obtain ⟨l4, h4⟩ := check_oidc_vars_some_ok s
    refine ⟨check_required_env_vars st.env ++ check_int_env_vars st.env ++
      check_soft_delete_config st.env ++ l4, ?_, ?_⟩
    · simp [run_all_checks, hs, h4]
    · rw [hst]
      simp [run_all_checks, hs, h4]

/-- Witness for claim C6 at the empty environment with resolved
settings. -/
theorem full_pass_idempotent_witness :
    ∃ findings,
      (run_all_checks ⟨[], some ⟨false, []⟩⟩).1 = Except.ok findings ∧
      (run_all_checks ((run_all_checks ⟨[], some ⟨false, []⟩⟩).2)).1 = Except.ok findings :=
  (full_pass_idempotent ⟨[], some ⟨false, []⟩⟩).2 ⟨false, []⟩ rfl

/-- Claim C7: running the checks leaves every environment binding and
the resolved-settings binding unchanged; the only effect is the returned
findings. -/
theorem checks_no_mutation (st : CheckState) :
    (run_all_checks st).2.env = st.env
    ∧ (run_all_checks st).2.settingsBinding = st.settingsBinding
    ∧ ∀ name, getenv (run_all_checks st).2.env name = getenv st.env name := by
  have hst := run_all_checks_state st
  exact ⟨by rw [hst], by rw [hst], fun name => by rw [hst]⟩

/-- Claim C8: within each of the required-value and integer-format
checks the findings appear in the declaration order of the iterated
list, and on the scenario environment the pass yields exactly the
`wygiwyh.E001` finding for `SQL_DATABASE` followed by the
`wygiwyh.E002` finding for `TASK_WORKERS` mentioning `4a`. -/
theorem findings_order_and_scenario :
    (∀ env : Env,
      check_required_env_vars env = REQUIRED_ENV_VARS.flatMap (requiredEntryFindings env))
    ∧ (∀ env : Env,
      check_int_env_vars env = INT_ENV_VARS.flatMap (intEntryFindings env))
    ∧ (run_all_checks ⟨scenarioEnv, some ⟨false, []⟩⟩).1 =
        Except.ok [requiredError "SQL_DATABASE" "The name of your postgres database.",
          intError "TASK_WORKERS" "How many workers to have for async tasks." "4a"]
    ∧ (requiredError "SQL_DATABASE" "The name of your postgres database.").id = "wygiwyh.E001"
    ∧ (intError "TASK_WORKERS" "How many workers to have for async tasks." "4a").id
        = "wygiwyh.E002"
    ∧ mentions
        (intError "TASK_WORKERS" "How many workers to have for async tasks." "4a").msg "4a" := by
  refine ⟨check_required_bind, check_int_bind, ?_, rfl, rfl, by decide⟩
  have h4 : check_oidc_vars (some ⟨false, []⟩) = Except.ok [] := by rfl
  simp only [run_all_checks, h4, Except.ok.injEq]
  decide

/-- Claim C9: the index view dispatch is total: every start-page
preference yields a redirect, each of the seven enumerated members maps
to the redirect of its page, and any stored value outside the
enumeration falls through to the monthly index redirect. -/
theorem index_dispatch_total :
    (∀ p : StartPage, ∃ route, index p = ViewResponse.redirect route)
    ∧ index StartPage.MONTHLY = ViewResponse.redirect "monthly_index"
    ∧ index StartPage.YEARLY_ACCOUNT = ViewResponse.redirect "yearly_index_account"
    ∧ index StartPage.YEARLY_CURRENCY = ViewResponse.redirect "yearly_index_currency"
    ∧ index StartPage.NETWORTH_CURRENT = ViewResponse.redirect "net_worth_current"
    ∧ index StartPage.NETWORTH_PROJECTED = ViewResponse.redirect "net_worth_projected"
    ∧ index StartPage.ALL_TRANSACTIONS = ViewResponse.redirect "transactions_all_index"
    ∧ index StartPage.CALENDAR = ViewResponse.redirect "calendar_index"
    ∧ ∀ s : String, index (StartPage.stored s) = ViewResponse.redirect "monthly_index" := by
  refine ⟨?_, rfl, rfl, rfl, rfl, rfl, rfl, rfl, fun s => rfl⟩
  intro p
  cases p <;> exact ⟨_, rfl⟩

/-- Claim C10: after any single call the session theme is one of the
two recognised values; calling twice from a recognised value restores
it; and from an unset (or empty) theme a single call ends with the
light theme, because the default dark value is applied and immediately
flipped. -/
theorem toggle_theme_spec :
    (∀ t0 : Option String,
      (toggle_theme t0).1 = "wygiwyh_dark" ∨ (toggle_theme t0).1 = "wygiwyh_light")
    ∧ (∀ v : String, (v = "wygiwyh_dark" ∨ v = "wygiwyh_light") →
        (toggle_theme (some ((toggle_theme (some v)).1))).1 = v)
    ∧ (toggle_theme none).1 = "wygiwyh_light" := by
  refine ⟨?_, ?_, by decide⟩
  · intro t0
    unfold toggle_theme
    dsimp only
    repeat' split
    all_goals simp
  · rintro v (rfl | rfl) <;> decide

/-- Witness for claim C10 starting from the dark theme. -/
theorem toggle_theme_spec_witness :
    (toggle_theme (some ((toggle_theme (some "wygiwyh_dark")).1))).1 = "wygiwyh_dark" :=
  toggle_theme_spec.2.1 "wygiwyh_dark" (Or.inl rfl)

end Wygiwyh
